import Mathlib

/-!
Verification development for the Rules Engine of the enterprise-inventory
application.  The data model is translated from the TypeScript interfaces
in `src/frontend/src/pages/Rules.tsx` (`Rule`, `RuleCondition`,
`RuleAction`, `RuleExecution`) together with the concrete sample data and
the handler functions of that page.  The executable core of the engine
(Condition Evaluator, Execution Orchestrator, Trigger Dispatcher) is not
present in the repository source; where a definition embeds that missing
core, its doc comment starts with `Modelled from the spec:` and follows
the specification text.
-/

namespace RulesEngine

/-- A JSON-ish scalar value, the payload of `RuleCondition.value`
(`value: any` in the source; the sample data only ever stores numbers,
strings, booleans and `null`). -/
inductive Value where
  | num  (n : Int)
  | str  (s : String)
  | bool (b : Bool)
  | null
deriving DecidableEq, Repr

/-- A JavaScript `Date` as constructed in the source: either from a
date string (`new Date('2024-01-01')`) or relative to page load
(`new Date(Date.now() + offsetMs)`, the offset usually negative). -/
inductive JSDate where
  | ofString  (s : String)
  | nowPlusMs (offsetMs : Int)
deriving DecidableEq, Repr

/-- The `logicalOperator` of a condition (`'AND' | 'OR'`). -/
inductive LogicalOp where
  | and
  | or
deriving DecidableEq, Repr

/-- `RuleCondition` from Rules.tsx: `id`, `field`, `operator` (a plain
string such as `"<="` or `"=="`), `value`, optional `logicalOperator`. -/
structure RuleCondition where
  id : String
  field : String
  operator : String
  value : Value
  logicalOperator : Option LogicalOp := none
deriving DecidableEq, Repr

/-- Action kind (`'update' | 'alert' | 'email' | 'webhook' | 'function'`). -/
inductive ActionType where
  | update
  | alert
  | email
  | webhook
  | function
deriving DecidableEq, Repr

/-- A value inside an action `config` object (`config: any` in the
source; sample configs hold strings, booleans, numbers and string
arrays). -/
inductive CVal where
  | s   (v : String)
  | b   (v : Bool)
  | q   (v : ℚ)
  | arr (v : List String)
deriving DecidableEq, Repr

/-- `RuleAction` from Rules.tsx: `id`, `type`, `config`, `order`. -/
structure RuleAction where
  id : String
  type : ActionType
  config : List (String × CVal)
  order : Nat
deriving DecidableEq, Repr

/-- Rule kind (`'validation' | 'transformation' | 'business_logic' |
'alert' | 'automation'`). -/
inductive RuleType where
  | validation
  | transformation
  | business_logic
  | alert
  | automation
deriving DecidableEq, Repr

/-- Rule status (`'active' | 'inactive' | 'draft' | 'error'`). -/
inductive RuleStatus where
  | active
  | inactive
  | draft
  | error
deriving DecidableEq, Repr

/-- Trigger kind (`'manual' | 'automatic' | 'scheduled' | 'event'`). -/
inductive TriggerType where
  | manual
  | automatic
  | scheduled
  | event
deriving DecidableEq, Repr

/-- `Rule` from Rules.tsx, field for field. -/
structure Rule where
  id : String
  name : String
  description : String
  type : RuleType
  status : RuleStatus
  priority : Nat
  conditions : List RuleCondition
  actions : List RuleAction
  trigger : TriggerType
  schedule : Option String := none
  lastExecuted : Option JSDate := none
  executionCount : Nat
  successRate : ℚ
  averageExecutionTime : ℚ
  createdBy : String
  createdAt : JSDate
  updatedAt : JSDate
  tags : List String
deriving DecidableEq, Repr

/-- Execution status (`'success' | 'failed' | 'running'`). -/
inductive ExecStatus where
  | success
  | failed
  | running
deriving DecidableEq, Repr

/-- `RuleExecution` from Rules.tsx.  `result: any` is modelled as the
string-to-integer object that every sample execution stores. -/
structure Execution where
  id : String
  ruleId : String
  status : ExecStatus
  startTime : JSDate
  endTime : Option JSDate := none
  duration : Option Nat := none
  recordsProcessed : Nat
  recordsAffected : Nat
  errors : List String
  result : List (String × Int)
deriving DecidableEq, Repr

/-! ## Condition Evaluator (spec §4.1; no implementation exists in src/) -/

/-- Modelled from the spec: an inventory record handed to the Condition
Evaluator — an identifier plus named fields (spec §3 and §6,
`getRecords`).  The repository source contains no record type for the
engine core, only the UI interfaces. -/
structure Record where
  id : String
  fields : List (String × Value)
deriving DecidableEq, Repr

/-- Modelled from the spec: resolve a field path on a record (spec §4.1
"dot-path into a record"); records here are flat, so the path is the
field name. -/
def lookupField (rec : Record) (path : String) : Option Value :=
  match rec.fields.find? (fun p => p.1 = path) with
  | some p => some p.2
  | none => none

/-- Modelled from the spec: `value` resolution (spec §4.1) — "if the
configured value names another field on the record, resolve it
dynamically before comparing; otherwise treat as a literal". -/
def resolveCondValue (rec : Record) (v : Value) : Value :=
  match v with
  | .str s =>
      match lookupField rec s with
      | some w => w
      | none => .str s
  | other => other

/-- Render a value as a string for the `matches` operator (spec §4.1:
"`matches` treats `value` as a regular expression tested against the
field as a string"). -/
def valueAsString : Value → String
  | .num n => toString n
  | .str s => s
  | .bool b => if b then "true" else "false"
  | .null => "null"

/-- Modelled from the spec: evaluate one condition against a record
(spec §4.1/§4.2 operator table).  `re pat s` is the regular-expression
collaborator used by `matches`.  Errors are `ConditionError`s: all
operators except `isNull` require the field path to resolve, and the
numeric comparisons require numeric operands. -/
def evalCondition (re : String → String → Bool) (rec : Record)
    (c : RuleCondition) : Except String Bool :=
  if c.operator = "isNull" then
    match lookupField rec c.field with
    | none => .ok true
    | some .null => .ok true
    | some _ => .ok false
  else
    match lookupField rec c.field with
    | none => .error ("ConditionError: unresolved field " ++ c.field)
    | some fv =>
      let rv := resolveCondValue rec c.value
      if c.operator = "==" then .ok (fv = rv)
      else if c.operator = "!=" then .ok (¬ (fv = rv))
      else if c.operator = "<" ∨ c.operator = "<=" ∨
              c.operator = ">" ∨ c.operator = ">=" then
        match fv, rv with
        | .num x, .num y =>
            if c.operator = "<" then .ok (x < y)
            else if c.operator = "<=" then .ok (x ≤ y)
            else if c.operator = ">" then .ok (x > y)
            else .ok (x ≥ y)
        | _, _ => .error ("ConditionError: non-numeric operand for " ++
            c.operator ++ " on field " ++ c.field)
      else if c.operator = "matches" then
        match rv with
        | .str pat => .ok (re pat (valueAsString fv))
        | _ => .error ("ConditionError: non-string pattern for matches on field "
            ++ c.field)
      else .error ("ConditionError: unknown operator " ++ c.operator)

/-- Modelled from the spec: combine the accumulator with the next
condition's result using the previous condition's `logicalOperator`
(spec §4.1); an absent operator defaults to AND, the sample data's only
combination. -/
def combineWith (op : Option LogicalOp) (acc b : Bool) : Bool :=
  match op with
  | some .or => acc || b
  | some .and => acc && b
  | none => acc && b

/-- Modelled from the spec: the tail of the left fold of spec §4.1 —
`acc` is the value accumulated so far and `prevOp` the `logicalOperator`
declared on the previous condition (the operator "sits on the edge
between condition i and i+1"). -/
def evalChain (re : String → String → Bool) (rec : Record) (acc : Bool)
    (prevOp : Option LogicalOp) :
    List RuleCondition → Except String Bool
  | [] => .ok acc
  | c :: rest =>
    match evalCondition re rec c with
    | .error e => .error e
    | .ok b => evalChain re rec (combineWith prevOp acc b) c.logicalOperator rest

/-- Modelled from the spec: `evaluate(record, conditions)` (spec §4.1) —
a flat left fold over the ordered condition list, the accumulator
initialised to the first condition's result; `evaluate(rec, [])` is
disallowed (spec §8) and yields a `ConditionError`. -/
def evaluate (re : String → String → Bool) (rec : Record) :
    List RuleCondition → Except String Bool
  | [] => .error "ConditionError: empty condition list"
  | c :: rest =>
    match evalCondition re rec c with
    | .error e => .error e
    | .ok b => evalChain re rec b c.logicalOperator rest

/-! ## Action ordering and Execution Orchestrator (spec §4.2, §4.4;
no implementation exists in src/) -/

/-- The "ascending `order`" relation on actions (spec §3: "executed
strictly in ascending `order`"). -/
def actionLE (a b : RuleAction) : Prop := a.order ≤ b.order

instance : DecidableRel actionLE := fun a b => by
  unfold actionLE; infer_instance

instance : IsTotal RuleAction actionLE :=
  ⟨fun a b => Nat.le_total a.order b.order⟩

instance : IsTrans RuleAction actionLE :=
  ⟨fun _ _ _ h h' => Nat.le_trans h h'⟩

/-- Modelled from the spec: the execution sequence of a rule's actions —
sorted by ascending `order`, ties keeping declaration order (spec §3
Action invariant; insertion sort is stable). -/
def sortActions (actions : List RuleAction) : List RuleAction :=
  actions.insertionSort actionLE

/-- `ActionResult{ok, detail, error}` (spec §4.2): the outcome of one
action executor on one record; executors never throw across the
Orchestrator boundary. -/
structure ActionResult where
  ok : Bool
  detail : String
  error : Option String := none
deriving DecidableEq, Repr

/-- Modelled from the spec: run all of a rule's actions on one matched
record, strictly in ascending `order`, with no short-circuit on failure
(spec §4.2).  `execAction` is the per-kind executor collaborator. -/
def recordActionResults (execAction : Record → RuleAction → ActionResult)
    (actions : List RuleAction) (rec : Record) : List ActionResult :=
  (sortActions actions).map (execAction rec)

/-- Modelled from the spec: the error entries one matched record
contributes to the Execution — one per failed action, "tagged with
record and action identity" (spec §4.2). -/
def recordErrors (execAction : Record → RuleAction → ActionResult)
    (actions : List RuleAction) (rec : Record) : List String :=
  ((sortActions actions).map (fun a => (a, execAction rec a))).filterMap
    (fun p =>
      if p.2.ok then none
      else some ("record " ++ rec.id ++ " action " ++ p.1.id ++ ": " ++
        (p.2.error.getD p.2.detail)))

/-- Modelled from the spec: did every action of this matched record
fail?  (spec §4.4: "100% of matched records had all their actions
fail"). -/
def allActionsFailed (execAction : Record → RuleAction → ActionResult)
    (actions : List RuleAction) (rec : Record) : Bool :=
  (recordActionResults execAction actions rec).all (fun res => ¬ res.ok)

/-- Modelled from the spec: `run(rule, batch) -> Execution` (spec §4.4).
`matches` is the per-record verdict of the Condition Evaluator,
`execAction` the Action Executor collaborator; `recordsProcessed =
|batch|`, `recordsAffected = |matched|`; status is `failed` only if the
matched count is positive and every matched record had all its actions
fail, otherwise `success`, with per-record/per-action failures collected
into `errors`. -/
def runRule (execId ruleId : String) (startTime endTime : JSDate)
    (matchesRec : Record → Bool)
    (execAction : Record → RuleAction → ActionResult)
    (actions : List RuleAction) (batch : List Record) : Execution :=
  let matched := batch.filter matchesRec
  { id := execId
    ruleId := ruleId
    status :=
      if 0 < matched.length ∧
          matched.all (allActionsFailed execAction actions) then
        .failed
      else .success
    startTime := startTime
    endTime := some endTime
    duration := none
    recordsProcessed := batch.length
    recordsAffected := matched.length
    errors := (matched.map (recordErrors execAction actions)).flatten
    result := [] }

/-! ## Trigger Dispatcher (spec §4.3; no implementation exists in src/) -/

/-- Dispatcher phase of one rule (spec §4.3: "states = {idle, candidate,
executing}"). -/
inductive Phase where
  | idle
  | candidate
  | executing
deriving DecidableEq, Repr

/-- Modelled from the spec: the Dispatcher's per-rule state — the phase,
the number of currently running Executions of the rule, and whether a
trigger that fired mid-run is queued (spec §4.3). -/
structure DispatchState where
  phase : Phase
  running : Nat
  queued : Bool
deriving DecidableEq, Repr

/-- The per-rule dispatcher starts idle with nothing running or
queued. -/
def initDispatch : DispatchState :=
  { phase := .idle, running := 0, queued := false }

/-- The kind of dispatcher event: a trigger firing for the rule, the
Orchestrator accepting the candidate batch, or an Execution reaching a
terminal state (success or failed). -/
inductive DLabel where
  | fire
  | accept
  | complete
deriving DecidableEq, Repr

/-- Modelled from the spec: the per-rule Dispatcher transitions
(spec §4.3).  A trigger on an idle rule makes it a candidate; a trigger
while executing is queued, not dropped and not run concurrently; the
Orchestrator accepting a candidate starts an Execution; completion
returns to idle, or directly to candidate when a trigger was queued. -/
inductive DStep : DLabel → DispatchState → DispatchState → Prop where
  | fire_idle (n : Nat) (q : Bool) :
      DStep .fire ⟨.idle, n, q⟩ ⟨.candidate, n, q⟩
  | fire_candidate (n : Nat) (q : Bool) :
      DStep .fire ⟨.candidate, n, q⟩ ⟨.candidate, n, q⟩
  | fire_executing (n : Nat) (q : Bool) :
      DStep .fire ⟨.executing, n, q⟩ ⟨.executing, n, true⟩
  | accept (n : Nat) (q : Bool) :
      DStep .accept ⟨.candidate, n, q⟩ ⟨.executing, n + 1, q⟩
  | complete_queued (n : Nat) :
      DStep .complete ⟨.executing, n + 1, true⟩ ⟨.candidate, n, false⟩
  | complete_idle (n : Nat) :
      DStep .complete ⟨.executing, n + 1, false⟩ ⟨.idle, n, false⟩

/-- A dispatcher state reachable from the initial state by a sequence of
transitions. -/
def DReachable (s : DispatchState) : Prop :=
  Relation.ReflTransGen (fun a b => ∃ l, DStep l a b) initDispatch s

/-! ## Scheduler gating and manual-run path (spec §4.3/§8;
Rules.tsx lines 937–943) -/

/-- Modelled from the spec: the candidates a Scheduler tick produces
from the rule set — only `active` rules, dispatched in ascending
`priority` (spec §3 "only `active` rules are scheduled", §4.3 cross-rule
ordering). -/
def schedulerCandidates (rules : List Rule) : List Rule :=
  (rules.filter (fun r => r.status = RuleStatus.active)).insertionSort
    (fun a b => a.priority ≤ b.priority)

/-- From Rules.tsx line 940: the manual Run (Play) button is rendered
with `disabled={rule.status !== 'active'}`. -/
def runButtonDisabled (rule : Rule) : Bool :=
  ¬ (rule.status = RuleStatus.active)

/-! ## Page handlers (Rules.tsx lines 684–734) -/

/-- The `filters` state of the Rules page: `{ status: '', type: '',
search: '' }`. -/
structure Filters where
  status : String
  type : String
  search : String
deriving DecidableEq, Repr

/-- The TS string literal of a rule status, as compared against
`filters.status`. -/
def statusStr : RuleStatus → String
  | .active => "active"
  | .inactive => "inactive"
  | .draft => "draft"
  | .error => "error"

/-- The TS string literal of a rule type, as compared against
`filters.type`. -/
def typeStr : RuleType → String
  | .validation => "validation"
  | .transformation => "transformation"
  | .business_logic => "business_logic"
  | .alert => "alert"
  | .automation => "automation"

/-- Does `sub` start the character list `s` (helper for JavaScript's
`String.prototype.includes`)? -/
def leadsWith : List Char → List Char → Bool
  | [], _ => true
  | _ :: _, [] => false
  | a :: as, b :: bs => a = b && leadsWith as bs

/-- Does `sub` occur as a contiguous run inside `s`? -/
def hasSub (sub : List Char) : List Char → Bool
  | [] => leadsWith sub []
  | c :: cs => leadsWith sub (c :: cs) || hasSub sub cs

/-- JavaScript `s.includes(pat)`: `pat` is a substring of `s`. -/
def strIncludes (s pat : String) : Bool :=
  hasSub pat.toList s.toList

/-- The filter predicate of `filteredRules` (Rules.tsx 684–690),
translated clause for clause: each `if … return false` guard in order,
with JS string truthiness (`filters.x` truthy iff non-empty). -/
def ruleMatchesFilters (filters : Filters) (rule : Rule) : Bool :=
  if filters.status ≠ "" ∧ statusStr rule.status ≠ filters.status then false
  else if filters.type ≠ "" ∧ typeStr rule.type ≠ filters.type then false
  else if filters.search ≠ "" ∧
      ¬ strIncludes rule.name.toLower filters.search.toLower ∧
      ¬ strIncludes rule.description.toLower filters.search.toLower then false
  else true

/-- `filteredRules` (Rules.tsx 684–690): `rules.filter(rule => …)`. -/
def filteredRules (rules : List Rule) (filters : Filters) : List Rule :=
  rules.filter (ruleMatchesFilters filters)

/-! ## Cron well-formedness (spec §3/§4.3; no parser exists in src/) -/

/-- Modelled from the spec: one field of a cron-style expression — a
wildcard or a number (spec §4.3 "a cron-style expression"; the only
schedule in the source is `'0 0 1 * *'`). -/
def cronFieldOk (f : String) : Bool :=
  f == "*" || (!(f == "") && f.toList.all (fun c => c.isDigit))

/-- Modelled from the spec: does a rule's optional `schedule` string
parse as a five-field cron expression (spec §3 Rule invariant: "its cron
expression (if `scheduled`) must parse")? -/
def cronWellFormed : Option String → Bool
  | none => false
  | some s =>
      let fs := s.splitOn " "
      fs.length == 5 && fs.all cronFieldOk

/-! ## Sample data (Rules.tsx lines 298–548) -/

/-- `sampleRules` from Rules.tsx, value for value. -/
def sampleRules : List Rule :=
  [ { id := "1"
      name := "Auto-Reorder Low Stock Items"
      description := "Automatically generate purchase orders when items fall below reorder point"
      type := .automation
      status := .active
      priority := 1
      conditions :=
        [ { id := "1", field := "quantity", operator := "<=",
            value := .str "reorder_point" },
          { id := "2", field := "status", operator := "==",
            value := .str "active", logicalOperator := some .and } ]
      actions :=
        [ { id := "1", type := .function,
            config := [("function", .s "create_purchase_order"),
                       ("auto_approve", .b false)],
            order := 1 },
          { id := "2", type := .alert,
            config := [("message", .s "Purchase order created for {item_name}"),
                       ("channels", .arr ["email", "dashboard"])],
            order := 2 } ]
      trigger := .automatic
      lastExecuted := some (.nowPlusMs (-(2 * 60 * 60 * 1000)))
      executionCount := 145
      successRate := 98.6
      averageExecutionTime := 1.2
      createdBy := "System Admin"
      createdAt := .ofString "2024-01-01"
      updatedAt := .nowPlusMs (-(7 * 24 * 60 * 60 * 1000))
      tags := ["inventory", "automation", "purchasing"] },
    { id := "2"
      name := "Price Validation Rule"
      description := "Validate that product prices are within acceptable ranges"
      type := .validation
      status := .active
      priority := 2
      conditions :=
        [ { id := "1", field := "price", operator := ">", value := .num 0 },
          { id := "2", field := "price", operator := "<",
            value := .str "cost * 10", logicalOperator := some .and } ]
      actions :=
        [ { id := "1", type := .alert,
            config := [("message", .s "Invalid price detected for {item_name}: ${price}"),
                       ("severity", .s "error"),
                       ("channels", .arr ["email", "dashboard"])],
            order := 1 } ]
      trigger := .automatic
      lastExecuted := some (.nowPlusMs (-(30 * 60 * 1000)))
      executionCount := 2346
      successRate := 99.9
      averageExecutionTime := 0.3
      createdBy := "John Doe"
      createdAt := .ofString "2024-01-15"
      updatedAt := .nowPlusMs (-(3 * 24 * 60 * 60 * 1000))
      tags := ["validation", "pricing", "quality"] },
    { id := "3"
      name := "Category Auto-Assignment"
      description := "Automatically assign products to categories based on name and attributes"
      type := .transformation
      status := .active
      priority := 3
      conditions :=
        [ { id := "1", field := "category", operator := "==", value := .null } ]
      actions :=
        [ { id := "1", type := .function,
            config := [("function", .s "classify_product"),
                       ("ml_model", .s "category_classifier_v2"),
                       ("confidence_threshold", .q 0.8)],
            order := 1 } ]
      trigger := .automatic
      lastExecuted := some (.nowPlusMs (-(45 * 60 * 1000)))
      executionCount := 567
      successRate := 87.3
      averageExecutionTime := 2.1
      createdBy := "Jane Smith"
      createdAt := .ofString "2024-02-01"
      updatedAt := .nowPlusMs (-(1 * 24 * 60 * 60 * 1000))
      tags := ["ml", "categorization", "automation"] },
    { id := "4"
      name := "Overstock Alert"
      description := "Send alerts when inventory levels exceed maximum stock thresholds"
      type := .alert
      status := .active
      priority := 4
      conditions :=
        [ { id := "1", field := "quantity", operator := ">",
            value := .str "max_stock" } ]
      actions :=
        [ { id := "1", type := .email,
            config := [("recipients", .arr ["manager@company.com"]),
                       ("subject", .s "Overstock Alert: {item_name}"),
                       ("template", .s "overstock_alert")],
            order := 1 },
          { id := "2", type := .alert,
            config := [("message", .s "Overstock detected: {item_name} ({quantity} units)"),
                       ("severity", .s "warning")],
            order := 2 } ]
      trigger := .automatic
      lastExecuted := some (.nowPlusMs (-(3 * 60 * 60 * 1000)))
      executionCount := 89
      successRate := 100
      averageExecutionTime := 0.8
      createdBy := "Mike Johnson"
      createdAt := .ofString "2024-01-20"
      updatedAt := .nowPlusMs (-(5 * 24 * 60 * 60 * 1000))
      tags := ["alerts", "inventory", "management"] },
    { id := "5"
      name := "Seasonal Demand Adjustment"
      description := "Adjust reorder points based on seasonal demand patterns"
      type := .business_logic
      status := .inactive
      priority := 5
      conditions :=
        [ { id := "1", field := "season", operator := "==",
            value := .str "high_demand" } ]
      actions :=
        [ { id := "1", type := .update,
            config := [("field", .s "reorder_point"),
                       ("formula", .s "reorder_point * seasonal_multiplier")],
            order := 1 } ]
      trigger := .scheduled
      schedule := some "0 0 1 * *"
      lastExecuted := some (.nowPlusMs (-(30 * 24 * 60 * 60 * 1000)))
      executionCount := 12
      successRate := 91.7
      averageExecutionTime := 45.2
      createdBy := "Sarah Wilson"
      createdAt := .ofString "2023-12-01"
      updatedAt := .nowPlusMs (-(15 * 24 * 60 * 60 * 1000))
      tags := ["seasonal", "demand", "optimization"] } ]

/-- `sampleExecutions` from Rules.tsx, value for value. -/
def sampleExecutions : List Execution :=
  [ { id := "1"
      ruleId := "1"
      status := .success
      startTime := .nowPlusMs (-(2 * 60 * 60 * 1000))
      endTime := some (.nowPlusMs (-(2 * 60 * 60 * 1000) + 30 * 1000))
      duration := some 30
      recordsProcessed := 2345
      recordsAffected := 23
      errors := []
      result := [("orders_created", 23), ("total_value", 45600)] },
    { id := "2"
      ruleId := "2"
      status := .success
      startTime := .nowPlusMs (-(30 * 60 * 1000))
      endTime := some (.nowPlusMs (-(30 * 60 * 1000) + 5 * 1000))
      duration := some 5
      recordsProcessed := 1234
      recordsAffected := 0
      errors := []
      result := [("validation_passed", 1234), ("validation_failed", 0)] },
    { id := "3"
      ruleId := "3"
      status := .failed
      startTime := .nowPlusMs (-(45 * 60 * 1000))
      endTime := some (.nowPlusMs (-(45 * 60 * 1000) + 60 * 1000))
      duration := some 60
      recordsProcessed := 56
      recordsAffected := 12
      errors := ["ML model timeout",
                 "Classification confidence below threshold for 5 items"]
      result := [("classified", 12), ("failed", 5)] } ]

/-- The possible outcomes of a `fetch` call in the handlers: an OK
response, a non-ok HTTP response, or a network error (rejected
promise). -/
inductive FetchOutcome where
  | okResp
  | httpError
  | networkError
deriving DecidableEq, Repr

/-- `handleToggleRule` (Rules.tsx 713–734) as a state transformer on the
`rules` state.  On an OK response `setRules` maps
`rule.id === ruleId ? { ...rule, status: newStatus } : rule` over the
previous state; a non-ok response throws before `setRules` and the
`catch` only logs, and a network error likewise reaches the `catch`, so
in both cases the state is unchanged. -/
def handleToggleRule (rules : List Rule) (ruleId : String)
    (newStatus : RuleStatus) (out : FetchOutcome) : List Rule :=
  match out with
  | .okResp =>
      rules.map (fun rule =>
        if rule.id = ruleId then { rule with status := newStatus } else rule)
  | .httpError => rules
  | .networkError => rules

/-- The visible page state touched by `handleRunRule`: the `rules` and
`executions` arrays. -/
structure PageState where
  rules : List Rule
  executions : List Execution
deriving Repr

/-- The `try` block of `handleRunRule` (Rules.tsx 693–707): an OK
response logs the started execution; a non-ok response throws
`'Failed to execute rule'`; a network failure is a rejected promise. -/
def runRuleTryBlock (out : FetchOutcome) : Except String (List String) :=
  match out with
  | .okResp => .ok ["Rule execution started"]
  | .httpError => .error "Failed to execute rule"
  | .networkError => .error "network failure"

/-- `handleRunRule` (Rules.tsx 692–711) as a state transformer: the
whole body is wrapped in `try … catch`, the `catch` only calls
`console.error`, and no branch calls `setRules` or `setExecutions`.
Returns the new page state and the console log lines. -/
def handleRunRule (out : FetchOutcome) (st : PageState) :
    PageState × List String :=
  match runRuleTryBlock out with
  | .ok logs => (st, logs)
  | .error e => (st, ["Error executing rule: " ++ e])

/-- `r'` agrees with `r` on every `Rule` field except possibly
`status`, which equals `newStatus` — the frame condition of the
`handleToggleRule` state update. -/
def onlyStatusChanged (r r' : Rule) (newStatus : RuleStatus) : Prop :=
  r'.status = newStatus ∧ r'.id = r.id ∧ r'.name = r.name ∧
  r'.description = r.description ∧ r'.type = r.type ∧
  r'.priority = r.priority ∧ r'.conditions = r.conditions ∧
  r'.actions = r.actions ∧ r'.trigger = r.trigger ∧
  r'.schedule = r.schedule ∧ r'.lastExecuted = r.lastExecuted ∧
  r'.executionCount = r.executionCount ∧ r'.successRate = r.successRate ∧
  r'.averageExecutionTime = r.averageExecutionTime ∧
  r'.createdBy = r.createdBy ∧ r'.createdAt = r.createdAt ∧
  r'.updatedAt = r.updatedAt ∧ r'.tags = r.tags

/-! ## Concrete fixtures used by witnesses -/

/-- A concrete record (`{quantity: 5}`) used to instantiate the
evaluator theorems. -/
def recQ5 : Record := { id := "r1", fields := [("quantity", .num 5)] }

/-- Fixture condition A: `quantity == 7` (false on `recQ5`), joined to
the next condition by AND. -/
def condA : RuleCondition :=
  { id := "1", field := "quantity", operator := "==", value := .num 7,
    logicalOperator := some .and }

/-- Fixture condition B: `quantity == 5` (true on `recQ5`), joined to
the next condition by OR. -/
def condB : RuleCondition :=
  { id := "2", field := "quantity", operator := "==", value := .num 5,
    logicalOperator := some .or }

/-- Fixture condition C: `quantity == 5` (true on `recQ5`). -/
def condC : RuleCondition :=
  { id := "3", field := "quantity", operator := "==", value := .num 5 }

/-- A concrete non-active rule (status `draft`) used to instantiate the
scheduling-gate theorem. -/
def draftRule : Rule :=
  { id := "d1", name := "Draft rule", description := "not yet activated"
    type := .validation, status := .draft, priority := 9
    conditions := [{ id := "1", field := "quantity", operator := "isNull",
                     value := .null }]
    actions := [{ id := "1", type := .alert, config := [], order := 1 }]
    trigger := .manual
    executionCount := 0, successRate := 0, averageExecutionTime := 0
    createdBy := "qa", createdAt := .ofString "2024-03-01"
    updatedAt := .ofString "2024-03-01", tags := [] }

/-! ## Theorems -/

/-- C1: For every record and every non-empty ordered condition list,
`evaluate` combines the conditions by a flat left fold: the accumulator
starts with the first condition's result and each subsequent condition
is combined using the previous condition's `logicalOperator`, so a mixed
chain `[A(AND), B(OR), C]` evaluates as `(A AND B) OR C` left-to-right,
never as `A AND (B OR C)`. -/
theorem evaluate_left_fold_mixed_chain (re : String → String → Bool)
    (rec : Record) (A B C : RuleCondition) (a b c : Bool)
    (hA : A.logicalOperator = some LogicalOp.and)
    (hB : B.logicalOperator = some LogicalOp.or)
    (ea : evalCondition re rec A = .ok a)
    (eb : evalCondition re rec B = .ok b)
    (ec : evalCondition re rec C = .ok c) :
    evaluate re rec [A, B, C] = .ok ((a && b) || c) := by
  simp [evaluate, evalChain, ea, eb, ec, hA, hB, combineWith]

/-- Witness for C1 at a concrete record and three concrete conditions
with A false, B true, C true — an assignment on which the left-to-right
grouping `(A AND B) OR C` (true) and the grouping `A AND (B OR C)`
(false) disagree. -/
theorem evaluate_left_fold_mixed_chain_witness :
    condA.logicalOperator = some LogicalOp.and ∧
    condB.logicalOperator = some LogicalOp.or ∧
    evalCondition (fun _ _ => false) recQ5 condA = .ok false ∧
    evalCondition (fun _ _ => false) recQ5 condB = .ok true ∧
    evalCondition (fun _ _ => false) recQ5 condC = .ok true ∧
    evaluate (fun _ _ => false) recQ5 [condA, condB, condC] = .ok ((false && true) || true) ∧
    ((false && true) || true) = true ∧
    (false && (true || true)) = false := by
  refine ⟨rfl, rfl, rfl, rfl, rfl, ?_, rfl, rfl⟩
  exact evaluate_left_fold_mixed_chain (fun _ _ => false) recQ5 condA condB condC
    false true true rfl rfl rfl rfl rfl

/-- C5: for every action list, the execution sequence is sorted in
ascending `order`, is a permutation of the declared list, keeps
declaration order on ties, and on the fixture
`[{order:5, type:alert}, {order:1, type:update}]` the update action
comes before the alert action. -/
theorem actions_execute_in_ascending_order :
    (∀ actions : List RuleAction, List.Sorted actionLE (sortActions actions)) ∧
    (∀ actions : List RuleAction, List.Perm (sortActions actions) actions) ∧
    (∀ (a b : RuleAction) (l : List RuleAction), a.order ≤ b.order →
      List.Sublist [a, b] l → List.Sublist [a, b] (sortActions l)) ∧
    sortActions
      [ { id := "1", type := .alert, config := [], order := 5 },
        { id := "2", type := .update, config := [], order := 1 } ] =
      [ { id := "2", type := .update, config := [], order := 1 },
        { id := "1", type := .alert, config := [], order := 5 } ] := by
  refine ⟨fun actions => List.sorted_insertionSort actionLE actions,
    fun actions => List.perm_insertionSort actionLE actions,
    fun a b l hab hsub => List.pair_sublist_insertionSort hab hsub, ?_⟩
  decide

/-- C10: `handleRunRule` never propagates an exception: for every fetch
outcome the `try` block's error (non-ok response or network failure) is
caught and logged, and the page state (`rules` and `executions`) is not
modified. -/
theorem handleRunRule_catches_and_preserves_state :
    ∀ (out : FetchOutcome) (st : PageState),
      (handleRunRule out st).1 = st ∧
      (handleRunRule out st).1.rules = st.rules ∧
      (handleRunRule out st).1.executions = st.executions ∧
      (out = FetchOutcome.httpError ∨ out = FetchOutcome.networkError →
        ∃ e, runRuleTryBlock out = .error e ∧
          (handleRunRule out st).2 = ["Error executing rule: " ++ e]) := by
  intro out st
  cases out <;> simp [handleRunRule, runRuleTryBlock]

/-- C3: in every reachable per-rule dispatcher state at most one
Execution of the rule is running; a trigger firing while the rule is
executing is queued (not dropped, and it does not start a concurrent
run); and the Orchestrator accepts a new run only when no Execution of
the rule is running, i.e. after the previous one reached a terminal
state. -/
theorem dispatcher_at_most_one_execution (s : DispatchState)
    (hs : DReachable s) :
    s.running ≤ 1 ∧
    (∀ t, DStep .fire s t → s.phase = Phase.executing →
      t.running = s.running ∧ t.queued = true ∧ t.phase = Phase.executing) ∧
    (∀ t, DStep .accept s t → s.running = 0) := by
  have key : ∀ u, DReachable u →
      (u.phase = Phase.executing → u.running = 1) ∧
      (¬ u.phase = Phase.executing → u.running = 0) := by
    intro u hu
    induction hu with
    | refl =>
        refine ⟨fun h => ?_, fun _ => rfl⟩
        exact absurd h (by simp [initDispatch])
    | tail _ step ih =>
        obtain ⟨l, step⟩ := step
        cases step <;> simp_all
  refine ⟨?_, ?_, ?_⟩
  · rcases key s hs with ⟨h1, h2⟩
    by_cases hp : s.phase = Phase.executing
    · simp [h1 hp]
    · simp [h2 hp]
  · intro t ht hp
    cases ht with
    | fire_idle n q => exact absurd hp (by simp)
    | fire_candidate n q => exact absurd hp (by simp)
    | fire_executing n q => exact ⟨rfl, rfl, rfl⟩
  · intro t ht
    cases ht with
    | accept n q => simpa using (key _ hs).2 (by simp)

/-- Witness for C3: the state reached by firing a trigger and letting
the Orchestrator accept it — one Execution running — is reachable and
satisfies the at-most-one bound. -/
theorem dispatcher_at_most_one_execution_witness :
    DReachable ⟨Phase.executing, 1, false⟩ ∧
    (⟨Phase.executing, 1, false⟩ : DispatchState).running ≤ 1 := by
  have h1 : DReachable ⟨Phase.candidate, 0, false⟩ :=
    Relation.ReflTransGen.single ⟨.fire, DStep.fire_idle 0 false⟩
  have h2 : DReachable ⟨Phase.executing, 1, false⟩ :=
    Relation.ReflTransGen.tail h1 ⟨.accept, DStep.accept 0 false⟩
  exact ⟨h2, (dispatcher_at_most_one_execution _ h2).1⟩

/-- C4: a rule whose status is not `active` is never executed — the
Scheduler never emits it as a candidate, and the manual-run (Play)
button is disabled for it. -/
theorem non_active_rule_never_initiated (rules : List Rule) (r : Rule)
    (h : r.status ≠ RuleStatus.active) :
    r ∉ schedulerCandidates rules ∧ runButtonDisabled r = true := by
  constructor
  · intro hmem
    have : r ∈ rules.filter (fun q => q.status = RuleStatus.active) := by
      simpa [schedulerCandidates, List.mem_insertionSort] using hmem
    have := (List.mem_filter.mp this).2
    simp only [decide_eq_true_eq] at this
    exact h this
  · simp [runButtonDisabled, h]

/-- Witness for C4 at the concrete draft rule and the sample rule set. -/
theorem non_active_rule_never_initiated_witness :
    draftRule.status ≠ RuleStatus.active ∧
    (draftRule ∉ schedulerCandidates sampleRules ∧
      runButtonDisabled draftRule = true) :=
  ⟨by decide, non_active_rule_never_initiated sampleRules draftRule (by decide)⟩

/-- C6: every rule in the program's rule set (the built-in sample rules,
the only rules the page ever loads) with status `active` has at least
one condition and at least one action, and if its trigger is `scheduled`
its cron expression parses; in particular `evaluate` is never handed an
empty condition list for an active rule. -/
theorem sample_active_rules_well_formed :
    ∀ r ∈ sampleRules, r.status = RuleStatus.active →
      r.conditions ≠ [] ∧ r.actions ≠ [] ∧
      (r.trigger = TriggerType.scheduled → cronWellFormed r.schedule = true) := by
  decide

/-- Witness for C6 at the first sample rule (which is active). -/
theorem sample_active_rules_well_formed_witness :
    (sampleRules.get ⟨0, by decide⟩) ∈ sampleRules ∧
    (sampleRules.get ⟨0, by decide⟩).status = RuleStatus.active ∧
    ((sampleRules.get ⟨0, by decide⟩).conditions ≠ [] ∧
      (sampleRules.get ⟨0, by decide⟩).actions ≠ [] ∧
      ((sampleRules.get ⟨0, by decide⟩).trigger = TriggerType.scheduled →
        cronWellFormed (sampleRules.get ⟨0, by decide⟩).schedule = true)) :=
  ⟨List.get_mem sampleRules 0 (by decide), by decide,
    sample_active_rules_well_formed _ (List.get_mem sampleRules 0 (by decide))
      (by decide)⟩

/-- C7: matched records are a subset of processed records — every
built-in sample execution satisfies `recordsAffected ≤
recordsProcessed`, and the Orchestrator's `run` always produces an
Execution with `recordsAffected = |matched| ≤ |batch| =
recordsProcessed`. -/
theorem records_affected_le_records_processed :
    (∀ e ∈ sampleExecutions, e.recordsAffected ≤ e.recordsProcessed) ∧
    (∀ (execId ruleId : String) (st en : JSDate) (matchesRec : Record → Bool)
        (execAction : Record → RuleAction → ActionResult)
        (actions : List RuleAction) (batch : List Record),
      (runRule execId ruleId st en matchesRec execAction actions batch).recordsAffected ≤
      (runRule execId ruleId st en matchesRec execAction actions batch).recordsProcessed) := by
  constructor
  · decide
  · intro execId ruleId st en matchesRec execAction actions batch
    simpa [runRule] using List.length_filter_le matchesRec batch

/-- Each failed action of a matched record contributes exactly one
entry to that record's error list. -/
theorem recordErrors_length (execAction : Record → RuleAction → ActionResult)
    (actions : List RuleAction) (r : Record) :
    (recordErrors execAction actions r).length =
      ((recordActionResults execAction actions r).filter
        (fun res => !res.ok)).length := by
  unfold recordErrors recordActionResults
  generalize sortActions actions = l
  induction l with
  | nil => rfl
  | cons a t ih =>
      by_cases h : (execAction r a).ok <;>
        simp [List.filterMap_cons, List.filter_cons, h,
          List.filterMap_map] at ih ⊢ <;>
        omega

/-- A matched record had all its actions fail exactly when every one of
its action results is not ok. -/
theorem allActionsFailed_iff (execAction : Record → RuleAction → ActionResult)
    (actions : List RuleAction) (r : Record) :
    allActionsFailed execAction actions r = true ↔
      ∀ res ∈ recordActionResults execAction actions r, res.ok = false := by
  simp [allActionsFailed, List.all_eq_true]

/-- C2: an Execution produced by the Orchestrator has status `failed`
iff the matched-record count is positive and every action of every
matched record failed; otherwise the status is `success`; the status is
always terminal; and the individual per-record/per-action failures are
collected into the Execution's `errors` list (each failed action of
each matched record contributing one entry) rather than escalated to
the status. -/
theorem runRule_failure_semantics (execId ruleId : String)
    (st en : JSDate) (matchesRec : Record → Bool)
    (execAction : Record → RuleAction → ActionResult)
    (actions : List RuleAction) (batch : List Record) :
    ((runRule execId ruleId st en matchesRec execAction actions batch).status =
        ExecStatus.failed ↔
      0 < (batch.filter matchesRec).length ∧
      ∀ r ∈ batch.filter matchesRec,
        ∀ res ∈ recordActionResults execAction actions r, res.ok = false) ∧
    ((runRule execId ruleId st en matchesRec execAction actions batch).status =
        ExecStatus.failed ∨
     (runRule execId ruleId st en matchesRec execAction actions batch).status =
        ExecStatus.success) ∧
    (∀ r ∈ batch.filter matchesRec,
      ∀ e ∈ recordErrors execAction actions r,
        e ∈ (runRule execId ruleId st en matchesRec execAction actions batch).errors) ∧
    (runRule execId ruleId st en matchesRec execAction actions batch).errors.length =
      ((batch.filter matchesRec).map (fun r =>
        ((recordActionResults execAction actions r).filter
          (fun res => !res.ok)).length)).sum := by
  refine ⟨?_, ?_, ?_, ?_⟩
  · simp only [runRule]
    split_ifs with h
    · simp only [true_iff]
      obtain ⟨h1, h2⟩ := h
      refine ⟨h1, ?_⟩
      intro r hr
      exact (allActionsFailed_iff execAction actions r).mp
        (List.all_eq_true.mp h2 r hr)
    · simp only [false_iff]
      intro ⟨h1, h2⟩
      exact h ⟨h1, List.all_eq_true.mpr fun r hr =>
        (allActionsFailed_iff execAction actions r).mpr (h2 r hr)⟩
  · simp only [runRule]
    split_ifs <;> simp
  · intro r hr e he
    simp only [runRule, List.mem_flatten]
    exact ⟨recordErrors execAction actions r, List.mem_map_of_mem _ hr, he⟩
  · simp only [runRule, List.length_flatten, List.map_map]
    exact congrArg List.sum (List.map_congr_left fun r _ =>
      recordErrors_length execAction actions r)

/-- The filter predicate of `filteredRules` is equivalent to the
three-clause visibility condition: empty-or-equal status, empty-or-equal
type, and empty-or-case-insensitive-substring search over name or
description. -/
theorem ruleMatchesFilters_iff (f : Filters) (r : Rule) :
    ruleMatchesFilters f r = true ↔
      ((f.status = "" ∨ statusStr r.status = f.status) ∧
       (f.type = "" ∨ typeStr r.type = f.type) ∧
       (f.search = "" ∨ strIncludes r.name.toLower f.search.toLower = true ∨
         strIncludes r.description.toLower f.search.toLower = true)) := by
  unfold ruleMatchesFilters
  split_ifs with h1 h2 h3
  · constructor
    · intro hh
      exact hh.elim
    · rintro ⟨p1, -, -⟩
      rcases p1 with he | he
      · exact absurd he h1.1
      · exact absurd he h1.2
  · constructor
    · intro hh
      exact hh.elim
    · rintro ⟨-, p2, -⟩
      rcases p2 with he | he
      · exact absurd he h2.1
      · exact absurd he h2.2
  · constructor
    · intro hh
      exact hh.elim
    · rintro ⟨-, -, p3⟩
      rcases p3 with he | he | he
      · exact absurd he h3.1
      · exact absurd he h3.2.1
      · exact absurd he h3.2.2
  · refine ⟨fun _ => ⟨?_, ?_, ?_⟩, fun _ => rfl⟩
    · by_cases hs : f.status = ""
      · exact Or.inl hs
      · right
        by_contra hne
        exact h1 ⟨hs, hne⟩
    · by_cases ht : f.type = ""
      · exact Or.inl ht
      · right
        by_contra hne
        exact h2 ⟨ht, hne⟩
    · by_cases hq : f.search = ""
      · exact Or.inl hq
      · right
        by_cases hn : strIncludes r.name.toLower f.search.toLower = true
        · exact Or.inl hn
        · right
          by_contra hd
          exact h3 ⟨hq, hn, hd⟩

/-- C8: a rule appears in `filteredRules` iff it is in the input array
and passes the status, type and case-insensitive search clauses, and
`filteredRules` preserves the relative order of the input array (it is
a sublist of it). -/
theorem filteredRules_membership_and_order (rules : List Rule) (f : Filters) :
    (∀ r : Rule,
      r ∈ filteredRules rules f ↔
        r ∈ rules ∧
        (f.status = "" ∨ statusStr r.status = f.status) ∧
        (f.type = "" ∨ typeStr r.type = f.type) ∧
        (f.search = "" ∨ strIncludes r.name.toLower f.search.toLower = true ∨
          strIncludes r.description.toLower f.search.toLower = true)) ∧
    List.Sublist (filteredRules rules f) rules := by
  constructor
  · intro r
    rw [filteredRules, List.mem_filter, ruleMatchesFilters_iff]
  · exact List.filter_sublist rules

/-- C9: on an OK response `handleToggleRule` changes only the `status`
field of the rules whose `id` equals `ruleId` (to `newStatus`), leaves
every rule with a different `id` untouched and preserves the array
length and order; on a non-ok response or network error the rules state
is entirely unchanged. -/
theorem handleToggleRule_frame (rules : List Rule) (ruleId : String)
    (newStatus : RuleStatus) :
    (∀ out, out ≠ FetchOutcome.okResp →
      handleToggleRule rules ruleId newStatus out = rules) ∧
    (handleToggleRule rules ruleId newStatus FetchOutcome.okResp).length =
      rules.length ∧
    (∀ i (hi : i < rules.length)
        (hi' : i < (handleToggleRule rules ruleId newStatus
          FetchOutcome.okResp).length),
      ((rules.get ⟨i, hi⟩).id ≠ ruleId →
        (handleToggleRule rules ruleId newStatus FetchOutcome.okResp).get
          ⟨i, hi'⟩ = rules.get ⟨i, hi⟩) ∧
      ((rules.get ⟨i, hi⟩).id = ruleId →
        onlyStatusChanged (rules.get ⟨i, hi⟩)
          ((handleToggleRule rules ruleId newStatus FetchOutcome.okResp).get
            ⟨i, hi'⟩) newStatus)) := by
  refine ⟨?_, ?_, ?_⟩
  · intro out h
    cases out with
    | okResp => exact absurd rfl h
    | httpError => rfl
    | networkError => rfl
  · simp [handleToggleRule]
  · intro i hi hi'
    have hget : (handleToggleRule rules ruleId newStatus
        FetchOutcome.okResp).get ⟨i, hi'⟩ =
        (if (rules.get ⟨i, hi⟩).id = ruleId then
          { rules.get ⟨i, hi⟩ with status := newStatus }
        else rules.get ⟨i, hi⟩) := by
      simp [handleToggleRule, List.get_eq_getElem, List.getElem_map]
    constructor
    · intro hne
      rw [hget, if_neg hne]
    · intro heq
      rw [hget, if_pos heq]
      exact ⟨rfl, rfl, rfl, rfl, rfl, rfl, rfl, rfl, rfl, rfl, rfl, rfl,
        rfl, rfl, rfl, rfl, rfl, rfl⟩

end RulesEngine
